import Mathlib

/-!
Verification of the scoring/classification engine of DashboardIntelligence
(`src/utils.py`): a rule-based vanity classifier, a value classifier, an
impact scorer, and two derived recommendation views over a table of metric
records.  Tables (pandas DataFrames) are modelled as lists of records; the
column-wise mask updates of the source act row-locally, so each classifier
is the map of a per-record function.  Scores are exact numbers (`Nat` for
the integer rule scores, `ℚ` for the weighted impact score).
-/

/-- Characters of a string lowercased, the model of Python `str.lower()`
(all matched keywords are ASCII, where `Char.toLower` agrees with Python). -/
def lowerChars (s : String) : List Char := s.data.map Char.toLower

/-- `hasPrefixChars n h` is true when `n` is a prefix of `h`. -/
def hasPrefixChars : List Char → List Char → Bool
  | [], _ => true
  | _ :: _, [] => false
  | a :: as, b :: bs => a == b && hasPrefixChars as bs

/-- `containsChars n h` is true when `n` occurs contiguously in `h`:
the model of Python `n in h` on strings. -/
def containsChars (needle : List Char) : List Char → Bool
  | [] => needle.isEmpty
  | b :: bs => hasPrefixChars needle (b :: bs) || containsChars needle bs

/-- Case-insensitive containment, the model of `needle.lower() in hay.lower()`. -/
def strContainsCI (hay needle : String) : Bool :=
  containsChars (lowerChars needle) (lowerChars hay)

/-- Case-sensitive containment, the model of `needle in hay`
(used by the impact scorer's recency table, `utils.py` line 164). -/
def strContainsCS (hay needle : String) : Bool :=
  containsChars needle.data hay.data

/-- The unknown-decision-use label, spelled with an apostrophe in the source;
built explicitly around the quote character (code point 39). -/
def dontKnow : String :=
  String.mk (['D', 'o', 'n'] ++ [Char.ofNat 39] ++ ['t', ' ', 'k', 'n', 'o', 'w'])

/-- One row of the KPI table: the eight input columns of `utils.py`, plus the
derived columns the two classifiers write.  A raw (not yet classified) row has
the derived columns at their defaults; assigning a derived column in pandas
creates or overwrites it, which the `with`-updates below model. -/
structure MetricRecord where
  Department : String
  Metric_Name : String
  Visible_in_Dashboard : String
  Used_in_Decision_Making : String
  Executive_Requested : String
  Last_Reviewed : String
  Metric_Last_Used_For_Decision : String
  Interpretation_Notes : String
  vanity_score : Nat := 0
  vanity_reasons : String := ""
  is_vanity : Bool := false
  value_score : Nat := 0
  value_reasons : String := ""
  is_high_value : Bool := false
deriving DecidableEq, Repr

/-- Model of pandas `Series.str.rstrip('; ')`: drop trailing characters that
are a semicolon or a space (`utils.py` lines 62 and 113). -/
def rstripSemiSpace (s : String) : String :=
  String.mk ((s.data.reverse.dropWhile (fun c => c == ';' || c == ' ')).reverse)

/-- Vanity keyword list of rule 5 (`utils.py` line 53). -/
def vanity_keywords : List String :=
  ["vanity", "optics", "unclear ownership", "misinterpreted"]

/-- The `never_used` list of vanity rule 4 (`utils.py` line 47). -/
def never_used : List String := ["Never", "Unknown", dontKnow]

/-- One iteration of the keyword loops over `Interpretation_Notes`
(`utils.py` lines 56-59 and 107-110): on a case-insensitive match add the
points and append the reason fragment, else leave the accumulator alone. -/
def notes_kw_step (notes label : String) (pts : Nat) (p : Nat × String)
    (kw : String) : Nat × String :=
  if strContainsCI notes kw then
    (p.1 + pts, p.2 ++ label ++ " (" ++ kw ++ "); ")
  else p

/-- Sequential accumulation of the five vanity rules (`utils.py` lines 28-59)
into the pair (vanity_score, vanity_reasons), starting from `(0, "")`. -/
def vanity_eval (r : MetricRecord) : Nat × String :=
  let p : Nat × String := (0, "")
  let p := if r.Visible_in_Dashboard = "Yes" ∧ r.Used_in_Decision_Making = "No" then
    (p.1 + 3, p.2 ++ "Visible but not used in decisions; ") else p
  let p := if r.Executive_Requested = "Yes" ∧ r.Used_in_Decision_Making = "No" then
    (p.1 + 2, p.2 ++ "Executive requested but not used; ") else p
  let p := if r.Last_Reviewed = "Unknown" ∨ r.Last_Reviewed = "Last quarter" ∨
      r.Last_Reviewed = "Last year" then
    (p.1 + 1, p.2 ++ "Not recently reviewed; ") else p
  let p := if r.Metric_Last_Used_For_Decision ∈ never_used then
    (p.1 + 2, p.2 ++ "Never or rarely used for decisions; ") else p
  vanity_keywords.foldl (notes_kw_step r.Interpretation_Notes "Notes indicate vanity" 2) p

/-- Per-record body of `identify_vanity_metrics` (`utils.py` lines 22-67):
reset and accumulate the vanity columns, strip the trailing separator, and
set `is_vanity` from the threshold `vanity_score >= 3`. -/
def identify_vanity_metrics_record (r : MetricRecord) : MetricRecord :=
  { r with
    vanity_score := (vanity_eval r).1,
    vanity_reasons := rstripSemiSpace (vanity_eval r).2,
    is_vanity := decide (3 ≤ (vanity_eval r).1) }

/-- `identify_vanity_metrics` over the whole table: every mask update of the
source touches each row independently, so the table map of the per-record body. -/
def identify_vanity_metrics (df : List MetricRecord) : List MetricRecord :=
  df.map identify_vanity_metrics_record

/-- Keyword list of value rule 2 (`utils.py` line 84). -/
def recent_decision_terms : List String :=
  ["recently", "this week", "2 weeks ago", "last month"]

/-- Keyword list of value rule 3 (`utils.py` line 94). -/
def recent_review_terms : List String := ["this week", "last month"]

/-- Value keyword list of rule 4 (`utils.py` line 104). -/
def value_keywords : List String :=
  ["tied to real goals", "drives", "customer impact", "strategic", "revenue"]

/-- Sequential accumulation of the four value rules (`utils.py` lines 75-110).
Rules 2 and 3 loop over their term lists breaking on the first match; since
every match adds the same fixed points and fragment exactly once, the loop
with break equals a single any-match test. -/
def value_eval (r : MetricRecord) : Nat × String :=
  let p : Nat × String := (0, "")
  let p := if r.Used_in_Decision_Making = "Yes" then
    (p.1 + 3, p.2 ++ "Used in decisions; ") else p
  let p := if recent_decision_terms.any
      (fun t => strContainsCI r.Metric_Last_Used_For_Decision t) then
    (p.1 + 2, p.2 ++ "Recently used for decisions; ") else p
  let p := if recent_review_terms.any (fun t => strContainsCI r.Last_Reviewed t) then
    (p.1 + 1, p.2 ++ "Recently reviewed; ") else p
  value_keywords.foldl (notes_kw_step r.Interpretation_Notes "Notes indicate value" 2) p

/-- Per-record body of `identify_valuable_metrics` (`utils.py` lines 69-118). -/
def identify_valuable_metrics_record (r : MetricRecord) : MetricRecord :=
  { r with
    value_score := (value_eval r).1,
    value_reasons := rstripSemiSpace (value_eval r).2,
    is_high_value := decide (4 ≤ (value_eval r).1) }

/-- `identify_valuable_metrics` over the whole table. -/
def identify_valuable_metrics (df : List MetricRecord) : List MetricRecord :=
  df.map identify_valuable_metrics_record

/-- Insert `x` into a list before the first element whose key does not exceed
`key x`: the insertion step of a stable descending sort. -/
def insertDesc {α : Type} (key : α → Nat) (x : α) : List α → List α
  | [] => [x]
  | y :: ys => if key y ≤ key x then x :: y :: ys else y :: insertDesc key x ys

/-- Deterministic executable model of pandas
`sort_values(..., ascending=False)`: a descending insertion sort.  The
program guarantees only the descending order: the source passes no `kind`
argument, so pandas uses its default quicksort, which is documented as not
stable — the relative order of tied keys is implementation-defined.  Every
property proved below about the sorted views is invariant under the tie
order, so nothing rests on the particular (stable) tie behaviour of this
model.  -/
def sortDesc {α : Type} (key : α → Nat) : List α → List α
  | [] => []
  | x :: xs => insertDesc key x (sortDesc key xs)

/-- `get_metrics_to_remove` (`utils.py` lines 186-194): filter on the
vanity/visible/not-high-value conjunction, then sort by `vanity_score`
descending. -/
def get_metrics_to_remove (df : List MetricRecord) : List MetricRecord :=
  sortDesc (fun r => r.vanity_score)
    (df.filter (fun r =>
      r.is_vanity && r.Visible_in_Dashboard == "Yes" && !r.is_high_value))

/-- First-occurrence-order deduplication, the model of pandas
`Series.unique()` (`utils.py` line 124). -/
def uniqueKeepFirst (l : List String) : List String :=
  l.foldl (fun acc d => if acc.contains d then acc else acc ++ [d]) []

/-- `get_top_metrics_by_department` (`utils.py` lines 120-128): for each
department (in first-occurrence order), its rows sorted by `value_score`
descending, truncated to the first `n`. -/
def get_top_metrics_by_department (df : List MetricRecord) (n : Nat) :
    List (String × List MetricRecord) :=
  (uniqueKeepFirst (df.map (fun r => r.Department))).map (fun d =>
    (d, (sortDesc (fun r => r.value_score)
          (df.filter (fun r => r.Department == d))).take n))

/-- The recency table of the impact scorer (`utils.py` lines 150-159),
in its iteration (insertion) order. -/
def recency_map : List (String × ℚ) :=
  [("This week", 1.0), ("Recently", 0.9), ("2 weeks ago", 0.8),
   ("Last month", 0.6), ("Last quarter", 0.3), ("Never", 0.0),
   ("Unknown", 0.0), (dontKnow, 0.0)]

/-- Decision-making sub-score (`utils.py` line 147). -/
def decision_score (r : MetricRecord) : ℚ :=
  if r.Used_in_Decision_Making = "Yes" then 1.0 else 0.0

/-- Recency sub-score (`utils.py` lines 161-166): the value of the first
recency-table key contained (case-sensitively) in the field, else 0. -/
def recency_score_of (s : String) : ℚ :=
  match recency_map.find? (fun p => strContainsCS s p.1) with
  | some p => p.2
  | none => 0.0

/-- Visibility sub-score (`utils.py` line 169). -/
def visibility_score (r : MetricRecord) : ℚ :=
  if r.Visible_in_Dashboard = "Yes" then 0.5 else 0.0

/-- Executive-interest sub-score (`utils.py` line 172). -/
def executive_score (r : MetricRecord) : ℚ :=
  if r.Executive_Requested = "Yes" then 0.8 else 0.0

/-- The weighted composite impact score of one record
(`utils.py` lines 135-180). -/
def impact_score_of (r : MetricRecord) : ℚ :=
  0.4 * decision_score r +
  0.3 * recency_score_of r.Metric_Last_Used_For_Decision +
  0.1 * visibility_score r +
  0.2 * executive_score r

/-- The identity key `f"{Department}_{Metric_Name}"` (`utils.py` line 144). -/
def metric_id (r : MetricRecord) : String :=
  r.Department ++ "_" ++ r.Metric_Name

/-- Python dict assignment `d[k] = v`: overwrite the value of an existing key
in place, else append the binding (insertion order preserved). -/
def dictInsert (d : List (String × ℚ)) (k : String) (v : ℚ) :
    List (String × ℚ) :=
  if d.any (fun p => p.1 == k) then
    d.map (fun p => if p.1 == k then (k, v) else p)
  else d ++ [(k, v)]

/-- `calculate_metric_impact_score` (`utils.py` lines 130-184): fold the rows
into a dict keyed by `metric_id`. -/
def calculate_metric_impact_score (df : List MetricRecord) :
    List (String × ℚ) :=
  df.foldl (fun d r => dictInsert d (metric_id r) (impact_score_of r)) []

/-- A raw table row as named cells, for the column-presence model: the
analysis pipeline of `app.py` (lines 200-207) receives a DataFrame whose
columns are not yet known to be the required ones. -/
def RawRow : Type := List (String × String)

/-- Column access on a raw row: the model of `row['col']`, which raises
`KeyError` when the column is absent (the error value names the column). -/
def colGet (row : RawRow) (c : String) : Except String String :=
  match List.lookup c row with
  | some v => Except.ok v
  | none => Except.error c

/-- The eight required input columns of the engine (spec §3/§6). -/
def required_columns : List String :=
  ["Department", "Metric_Name", "Visible_in_Dashboard",
   "Used_in_Decision_Making", "Executive_Requested", "Last_Reviewed",
   "Metric_Last_Used_For_Decision", "Interpretation_Notes"]

/-- Read the eight required columns of one row.  The pipeline of `app.py`
reads all eight across its stages (the two classifiers read six of them,
`get_top_metrics_by_department` reads `Department`, the impact scorer reads
`Department` and `Metric_Name`); a missing column surfaces as the `Except`
error, the model of the `KeyError` pandas raises at the column access. -/
def rowToRecord (row : RawRow) : Except String MetricRecord := do
  let dep ← colGet row "Department"
  let name ← colGet row "Metric_Name"
  let vis ← colGet row "Visible_in_Dashboard"
  let used ← colGet row "Used_in_Decision_Making"
  let ex ← colGet row "Executive_Requested"
  let lr ← colGet row "Last_Reviewed"
  let ml ← colGet row "Metric_Last_Used_For_Decision"
  let notes ← colGet row "Interpretation_Notes"
  pure { Department := dep, Metric_Name := name, Visible_in_Dashboard := vis,
         Used_in_Decision_Making := used, Executive_Requested := ex,
         Last_Reviewed := lr, Metric_Last_Used_For_Decision := ml,
         Interpretation_Notes := notes }

/-- The whole analysis run of `app.py` (lines 200-207) over a raw table:
column access errors abort the batch before any classified output exists
(`st.stop()` after the caught exception); otherwise the two classifiers run
chained on the converted records. -/
def run_pipeline_checked (df : List RawRow) :
    Except String (List MetricRecord) := do
  let records ← df.mapM rowToRecord
  pure (identify_valuable_metrics (identify_vanity_metrics records))

/-- Spec-reading of vanity rule 1: +3 for visible but not used. -/
def vanity_contrib_1 (r : MetricRecord) : Nat :=
  if r.Visible_in_Dashboard = "Yes" ∧ r.Used_in_Decision_Making = "No" then 3 else 0

/-- Spec-reading of vanity rule 2: +2 for executive-requested but not used. -/
def vanity_contrib_2 (r : MetricRecord) : Nat :=
  if r.Executive_Requested = "Yes" ∧ r.Used_in_Decision_Making = "No" then 2 else 0

/-- Spec-reading of vanity rule 3: +1 for not recently reviewed. -/
def vanity_contrib_3 (r : MetricRecord) : Nat :=
  if r.Last_Reviewed = "Unknown" ∨ r.Last_Reviewed = "Last quarter" ∨
      r.Last_Reviewed = "Last year" then 1 else 0

/-- Spec-reading of vanity rule 4: +2 for never/unknown last decision use. -/
def vanity_contrib_4 (r : MetricRecord) : Nat :=
  if r.Metric_Last_Used_For_Decision ∈ never_used then 2 else 0

/-- Spec-reading of vanity rule 5: +2 per matched notes keyword,
all matches counted independently. -/
def vanity_contrib_5 (r : MetricRecord) : Nat :=
  2 * (vanity_keywords.filter (fun kw => strContainsCI r.Interpretation_Notes kw)).length

/-- Spec-reading of value rule 1: +3 for used in decision making. -/
def value_contrib_1 (r : MetricRecord) : Nat :=
  if r.Used_in_Decision_Making = "Yes" then 3 else 0

/-- Spec-reading of value rule 2: +2 at most once, on any recency term match. -/
def value_contrib_2 (r : MetricRecord) : Nat :=
  if recent_decision_terms.any
      (fun t => strContainsCI r.Metric_Last_Used_For_Decision t) then 2 else 0

/-- Spec-reading of value rule 3: +1 at most once, on any review term match. -/
def value_contrib_3 (r : MetricRecord) : Nat :=
  if recent_review_terms.any (fun t => strContainsCI r.Last_Reviewed t) then 1 else 0

/-- Spec-reading of value rule 4: +2 per matched notes keyword, no early stop. -/
def value_contrib_4 (r : MetricRecord) : Nat :=
  2 * (value_keywords.filter (fun kw => strContainsCI r.Interpretation_Notes kw)).length

/-- The input attributes of a record, as a projection: the view a classifier
must leave untouched. -/
def inputColumns (r : MetricRecord) : List String :=
  [r.Department, r.Metric_Name, r.Visible_in_Dashboard,
   r.Used_in_Decision_Making, r.Executive_Requested, r.Last_Reviewed,
   r.Metric_Last_Used_For_Decision, r.Interpretation_Notes]

/-- The spec §8 end-to-end scenario record. -/
def exOps : MetricRecord :=
  { Department := "Ops", Metric_Name := "Pageviews",
    Visible_in_Dashboard := "Yes", Used_in_Decision_Making := "No",
    Executive_Requested := "Yes", Last_Reviewed := "Last year",
    Metric_Last_Used_For_Decision := "Never",
    Interpretation_Notes := "Used mainly for optics" }

/-- A record matching value rules 1, 2 and one rule-4 keyword. -/
def exSales : MetricRecord :=
  { Department := "Sales", Metric_Name := "Revenue",
    Visible_in_Dashboard := "Yes", Used_in_Decision_Making := "Yes",
    Executive_Requested := "Yes", Last_Reviewed := "This week",
    Metric_Last_Used_For_Decision := "This week",
    Interpretation_Notes := "Drives quarterly planning" }

/-- A record sharing `exSales`'s department and metric name but scoring
differently (not used in decisions). -/
def exSalesDup : MetricRecord :=
  { Department := "Sales", Metric_Name := "Revenue",
    Visible_in_Dashboard := "No", Used_in_Decision_Making := "No",
    Executive_Requested := "No", Last_Reviewed := "Unknown",
    Metric_Last_Used_For_Decision := "Never",
    Interpretation_Notes := "" }

/-- A record whose `Metric_Last_Used_For_Decision` is lowercase "this week". -/
def exLowerWeek : MetricRecord :=
  { Department := "Ops", Metric_Name := "Lower",
    Visible_in_Dashboard := "No", Used_in_Decision_Making := "No",
    Executive_Requested := "No", Last_Reviewed := "Never",
    Metric_Last_Used_For_Decision := "this week",
    Interpretation_Notes := "" }

/-- The same record with the capitalized label "This week". -/
def exUpperWeek : MetricRecord :=
  { Department := "Ops", Metric_Name := "Upper",
    Visible_in_Dashboard := "No", Used_in_Decision_Making := "No",
    Executive_Requested := "No", Last_Reviewed := "Never",
    Metric_Last_Used_For_Decision := "This week",
    Interpretation_Notes := "" }

/-- A complete raw row carrying all eight required columns. -/
def exRawRow : RawRow :=
  [("Department", "Ops"), ("Metric_Name", "Pageviews"),
   ("Visible_in_Dashboard", "Yes"), ("Used_in_Decision_Making", "No"),
   ("Executive_Requested", "Yes"), ("Last_Reviewed", "Last year"),
   ("Metric_Last_Used_For_Decision", "Never"),
   ("Interpretation_Notes", "Used mainly for optics")]

theorem foldl_notes_kw_fst (notes label : String) (pts : Nat)
    (kws : List String) : ∀ p : Nat × String,
    (kws.foldl (notes_kw_step notes label pts) p).1 =
      p.1 + pts * (kws.filter (fun kw => strContainsCI notes kw)).length := by
  induction kws with
  | nil => intro p; simp
  | cons k ks ih =>
    intro p
    simp only [List.foldl_cons, List.filter_cons]
    by_cases h : strContainsCI notes k = true
    · simp only [notes_kw_step, h, if_true, ih, List.length_cons]
      ring
    · simp only [notes_kw_step, h, if_false, Bool.false_eq_true, ih]

/-- C1.  Every record's vanity score is the sum of the five independent rule
contributions, and the vanity flag is exactly the threshold test at 3. -/
theorem claim_C1 (df : List MetricRecord) :
    identify_vanity_metrics df = df.map identify_vanity_metrics_record ∧
    ∀ r ∈ df,
      (identify_vanity_metrics_record r).vanity_score =
        vanity_contrib_1 r + vanity_contrib_2 r + vanity_contrib_3 r +
          vanity_contrib_4 r + vanity_contrib_5 r ∧
      ((identify_vanity_metrics_record r).is_vanity = true ↔
        3 ≤ (identify_vanity_metrics_record r).vanity_score) := by
  refine ⟨rfl, fun r _ => ⟨?_, ?_⟩⟩
  · show (vanity_eval r).1 = _
    simp only [vanity_eval]
    rw [foldl_notes_kw_fst]
    simp only [vanity_contrib_1, vanity_contrib_2, vanity_contrib_3,
      vanity_contrib_4, vanity_contrib_5]
    split_ifs <;> omega
  · simp [identify_vanity_metrics_record]

theorem claim_C1_witness :
    (identify_vanity_metrics_record exOps).vanity_score =
      vanity_contrib_1 exOps + vanity_contrib_2 exOps + vanity_contrib_3 exOps +
        vanity_contrib_4 exOps + vanity_contrib_5 exOps ∧
    ((identify_vanity_metrics_record exOps).is_vanity = true ↔
      3 ≤ (identify_vanity_metrics_record exOps).vanity_score) :=
  (claim_C1 [exOps]).2 exOps (List.mem_singleton.mpr rfl)

/-- C2.  Every record's value score is the sum of the four rule
contributions — rules 2 and 3 contributing at most once, rule 4 per matched
keyword — and the high-value flag is exactly the threshold test at 4. -/
theorem claim_C2 (df : List MetricRecord) :
    identify_valuable_metrics df = df.map identify_valuable_metrics_record ∧
    ∀ r ∈ df,
      (identify_valuable_metrics_record r).value_score =
        value_contrib_1 r + value_contrib_2 r + value_contrib_3 r +
          value_contrib_4 r ∧
      ((identify_valuable_metrics_record r).is_high_value = true ↔
        4 ≤ (identify_valuable_metrics_record r).value_score) := by
  refine ⟨rfl, fun r _ => ⟨?_, ?_⟩⟩
  · show (value_eval r).1 = _
    simp only [value_eval]
    rw [foldl_notes_kw_fst]
    simp only [value_contrib_1, value_contrib_2, value_contrib_3,
      value_contrib_4]
    split_ifs <;> omega
  · simp [identify_valuable_metrics_record]

theorem claim_C2_witness :
    (identify_valuable_metrics_record exSales).value_score =
      value_contrib_1 exSales + value_contrib_2 exSales +
        value_contrib_3 exSales + value_contrib_4 exSales ∧
    ((identify_valuable_metrics_record exSales).is_high_value = true ↔
      4 ≤ (identify_valuable_metrics_record exSales).value_score) :=
  (claim_C2 [exSales]).2 exSales (List.mem_singleton.mpr rfl)

theorem insertDesc_perm {α : Type} (key : α → Nat) (x : α) (l : List α) :
    List.Perm (insertDesc key x l) (x :: l) := by
  induction l with
  | nil => exact List.Perm.refl _
  | cons y ys ih =>
    simp only [insertDesc]
    split
    · exact List.Perm.refl _
    · exact (ih.cons y).trans (List.Perm.swap x y ys)

theorem sortDesc_perm {α : Type} (key : α → Nat) (l : List α) :
    List.Perm (sortDesc key l) l := by
  induction l with
  | nil => exact List.Perm.refl _
  | cons x xs ih =>
    exact (insertDesc_perm key x (sortDesc key xs)).trans (ih.cons x)

theorem insertDesc_pairwise {α : Type} (key : α → Nat) (x : α) (l : List α)
    (h : List.Pairwise (fun a b => key b ≤ key a) l) :
    List.Pairwise (fun a b => key b ≤ key a) (insertDesc key x l) := by
  induction l with
  | nil => simp [insertDesc]
  | cons y ys ih =>
    rw [List.pairwise_cons] at h
    simp only [insertDesc]
    split
    · rw [List.pairwise_cons]
      refine ⟨?_, List.pairwise_cons.mpr h⟩
      intro b hb
      rcases List.mem_cons.mp hb with rfl | hb
      · assumption
      · exact Nat.le_trans (h.1 b hb) (by assumption)
    · rw [List.pairwise_cons]
      refine ⟨?_, ih h.2⟩
      intro b hb
      rcases List.mem_cons.mp ((insertDesc_perm key x ys).mem_iff.mp hb)
        with rfl | hb
      · exact Nat.le_of_lt (Nat.lt_of_not_le (by assumption))
      · exact h.1 b hb

theorem sortDesc_pairwise {α : Type} (key : α → Nat) (l : List α) :
    List.Pairwise (fun a b => key b ≤ key a) (sortDesc key l) := by
  induction l with
  | nil => simp [sortDesc]
  | cons x xs ih => exact insertDesc_pairwise key x _ ih

/-- C3.  The removal-candidate view is a permutation of exactly the records
with `is_vanity`, visible, and not `is_high_value`; it is sorted by
`vanity_score` descending, and it contains no high-value record. -/
theorem claim_C3 (df : List MetricRecord) :
    List.Perm (get_metrics_to_remove df)
      (df.filter (fun r =>
        r.is_vanity && r.Visible_in_Dashboard == "Yes" && !r.is_high_value)) ∧
    List.Pairwise (fun a b => b.vanity_score ≤ a.vanity_score)
      (get_metrics_to_remove df) ∧
    (∀ r, r ∈ get_metrics_to_remove df ↔
      r ∈ df ∧ r.is_vanity = true ∧ r.Visible_in_Dashboard = "Yes" ∧
        r.is_high_value = false) ∧
    (∀ r ∈ get_metrics_to_remove df, r.is_high_value = false) := by
  have hperm := sortDesc_perm (fun r => r.vanity_score)
    (df.filter (fun r =>
      r.is_vanity && r.Visible_in_Dashboard == "Yes" && !r.is_high_value))
  have hmem : ∀ r, r ∈ get_metrics_to_remove df ↔
      r ∈ df ∧ r.is_vanity = true ∧ r.Visible_in_Dashboard = "Yes" ∧
        r.is_high_value = false := by
    intro r
    rw [get_metrics_to_remove, hperm.mem_iff, List.mem_filter]
    simp [Bool.and_eq_true, and_assoc]
  refine ⟨hperm, sortDesc_pairwise _ _, hmem, ?_⟩
  intro r hr
  exact ((hmem r).mp hr).2.2.2

/-- C5.  On the spec §8 probe record (used for decisions this week, visible,
executive-requested), the impact mapping holds exactly the weighted sum
0.4·1.0 + 0.3·1.0 + 0.1·0.5 + 0.2·0.8 = 0.91 under the record's key. -/
theorem claim_C5 :
    impact_score_of exSales =
      0.4 * 1.0 + 0.3 * 1.0 + 0.1 * 0.5 + 0.2 * 0.8 ∧
    (calculate_metric_impact_score [exSales]).lookup "Sales_Revenue" =
      some (0.91 : ℚ) := by
  have him : impact_score_of exSales =
      0.4 * 1.0 + 0.3 * 1.0 + 0.1 * 0.5 + 0.2 * 0.8 := by
    rw [impact_score_of,
      show decision_score exSales = 1.0 from rfl,
      show recency_score_of exSales.Metric_Last_Used_For_Decision = 1.0 from rfl,
      show visibility_score exSales = 0.5 from rfl,
      show executive_score exSales = 0.8 from rfl]
  refine ⟨him, ?_⟩
  rw [show calculate_metric_impact_score [exSales] =
      [("Sales_Revenue", impact_score_of exSales)] from rfl, him]
  norm_num [List.lookup]

theorem lookup_gives_mem {β : Type} (k : String) (v : β) :
    ∀ d : List (String × β), d.lookup k = some v → ∃ p ∈ d, p.2 = v := by
  intro d
  induction d with
  | nil => intro h; simp [List.lookup] at h
  | cons p ps ih =>
    obtain ⟨a, b⟩ := p
    intro h
    by_cases hka : (k == a) = true
    · simp only [List.lookup, hka] at h
      exact ⟨(a, b), List.mem_cons_self _ _, Option.some_inj.mp h⟩
    · simp only [List.lookup, Bool.not_eq_true] at h
      rw [Bool.not_eq_true] at hka
      rw [hka] at h
      obtain ⟨q, hq, hv⟩ := ih h
      exact ⟨q, List.mem_cons_of_mem _ hq, hv⟩

theorem dictInsert_mem (d : List (String × ℚ)) (k : String) (v : ℚ) :
    ∀ p ∈ dictInsert d k v, p ∈ d ∨ p = (k, v) := by
  intro p hp
  rw [dictInsert] at hp
  split_ifs at hp with h
  · obtain ⟨q, hq, hfq⟩ := List.mem_map.mp hp
    by_cases hqk : (q.1 == k) = true
    · rw [if_pos hqk] at hfq
      exact Or.inr hfq.symm
    · rw [Bool.not_eq_true] at hqk
      rw [if_neg (by simp [hqk])] at hfq
      exact Or.inl (hfq ▸ hq)
  · rcases List.mem_append.mp hp with hp' | hp'
    · exact Or.inl hp'
    · exact Or.inr (List.mem_singleton.mp hp')

theorem calc_values_aux (df : List MetricRecord) :
    ∀ acc : List (String × ℚ),
      (∀ p ∈ acc, ∃ r : MetricRecord, p.2 = impact_score_of r) →
      ∀ p ∈ df.foldl
        (fun d r => dictInsert d (metric_id r) (impact_score_of r)) acc,
        ∃ r : MetricRecord, p.2 = impact_score_of r := by
  induction df with
  | nil => intro acc hacc p hp; exact hacc p hp
  | cons r rs ih =>
    intro acc hacc p hp
    simp only [List.foldl_cons] at hp
    refine ih _ ?_ p hp
    intro q hq
    rcases dictInsert_mem _ _ _ q hq with hq' | rfl
    · exact hacc q hq'
    · exact ⟨r, rfl⟩

theorem recency_score_bounds (s : String) :
    0 ≤ recency_score_of s ∧ recency_score_of s ≤ 1 := by
  rw [recency_score_of]
  cases hf : recency_map.find? (fun p => strContainsCS s p.1) with
  | none => norm_num
  | some p =>
    have hp : p ∈ recency_map := List.mem_of_find?_eq_some hf
    simp only [recency_map, List.mem_cons, List.not_mem_nil, or_false] at hp
    rcases hp with rfl | rfl | rfl | rfl | rfl | rfl | rfl | rfl <;> norm_num

theorem impact_score_bounds (r : MetricRecord) :
    0 ≤ impact_score_of r ∧ impact_score_of r ≤ 1 := by
  have hr := recency_score_bounds r.Metric_Last_Used_For_Decision
  rw [impact_score_of, decision_score, visibility_score, executive_score]
  split_ifs <;> constructor <;> nlinarith [hr.1, hr.2]

theorem lookup_append_right {β : Type} (k : String) (v : β) :
    ∀ d : List (String × β), d.any (fun p => p.1 == k) = false →
      (d ++ [(k, v)]).lookup k = some v := by
  intro d
  induction d with
  | nil => intro _; simp [List.lookup]
  | cons p ps ih =>
    obtain ⟨a, b⟩ := p
    intro h
    simp only [List.any_cons, Bool.or_eq_false_iff] at h
    have hka : (k == a) = false := by
      have hne : ¬ a = k := by simpa using h.1
      simp only [beq_eq_false_iff_ne, ne_eq]
      exact fun hk => hne hk.symm
    simp only [List.cons_append, List.lookup, hka]
    exact ih h.2

theorem lookup_map_replace {β : Type} (k : String) (v : β) :
    ∀ d : List (String × β), d.any (fun p => p.1 == k) = true →
      (d.map (fun p => if p.1 == k then (k, v) else p)).lookup k = some v := by
  intro d
  induction d with
  | nil => intro h; simp at h
  | cons p ps ih =>
    obtain ⟨a, b⟩ := p
    intro h
    by_cases hak : (a == k) = true
    · have ha : a = k := by simpa using hak
      subst ha
      dsimp only [List.map_cons]
      rw [if_pos hak]
      simp [List.lookup]
    · have hka : (k == a) = false := by
        have hne : ¬ a = k := by simpa using hak
        simp only [beq_eq_false_iff_ne, ne_eq]
        exact fun hk => hne hk.symm
      have h' : ps.any (fun p => p.1 == k) = true := by
        simp only [List.any_cons, Bool.not_eq_true] at h
        rw [Bool.not_eq_true] at hak
        rw [hak] at h
        simpa using h
      simp only [List.map_cons, Bool.not_eq_true] at *
      rw [if_neg (by simp [hak])]
      simp only [List.lookup, hka]
      exact ih h'

theorem dictInsert_lookup (d : List (String × ℚ)) (k : String) (v : ℚ) :
    (dictInsert d k v).lookup k = some v := by
  rw [dictInsert]
  split_ifs with h
  · exact lookup_map_replace k v d h
  · exact lookup_append_right k v d
      (by simp only [Bool.not_eq_true] at h; exact h)

/-- C8.  Every impact score lies in [0,1], and when a record's identity key
already occurs earlier in the table, the later record's score overwrites the
earlier binding: the key of the last record maps to that record's score. -/
theorem claim_C8 :
    (∀ r : MetricRecord, 0 ≤ impact_score_of r ∧ impact_score_of r ≤ 1) ∧
    (∀ (df : List MetricRecord) (k : String) (v : ℚ),
      (calculate_metric_impact_score df).lookup k = some v →
        0 ≤ v ∧ v ≤ 1) ∧
    (∀ (df : List MetricRecord) (r : MetricRecord),
      (calculate_metric_impact_score (df ++ [r])).lookup (metric_id r) =
        some (impact_score_of r)) := by
  refine ⟨impact_score_bounds, ?_, ?_⟩
  · intro df k v hl
    obtain ⟨p, hp, hv⟩ := lookup_gives_mem k v _ hl
    obtain ⟨r, hr⟩ := calc_values_aux df [] (by simp) p hp
    rw [← hv, hr]
    exact impact_score_bounds r
  · intro df r
    rw [calculate_metric_impact_score, List.foldl_append, List.foldl_cons,
      List.foldl_nil]
    exact dictInsert_lookup _ _ _

theorem claim_C8_witness :
    (calculate_metric_impact_score [exSales]).lookup "Sales_Revenue" =
      some (impact_score_of exSales) ∧
    0 ≤ impact_score_of exSales ∧ impact_score_of exSales ≤ 1 ∧
    (calculate_metric_impact_score ([exSales] ++ [exSalesDup])).lookup
        (metric_id exSalesDup) = some (impact_score_of exSalesDup) :=
  ⟨claim_C8.2.2 [] exSales,
    (claim_C8.2.1 [exSales] "Sales_Revenue" (impact_score_of exSales)
      (claim_C8.2.2 [] exSales)).1,
    (claim_C8.2.1 [exSales] "Sales_Revenue" (impact_score_of exSales)
      (claim_C8.2.2 [] exSales)).2,
    claim_C8.2.2 [exSales] exSalesDup⟩

set_option maxRecDepth 4000 in
theorem claim_C3_witness :
    identify_valuable_metrics_record (identify_vanity_metrics_record exOps) ∈
      get_metrics_to_remove
        [identify_valuable_metrics_record (identify_vanity_metrics_record exOps)] ∧
    (identify_valuable_metrics_record
        (identify_vanity_metrics_record exOps)).is_high_value = false :=
  ⟨by decide,
    (claim_C3
        [identify_valuable_metrics_record
          (identify_vanity_metrics_record exOps)]).2.2.2 _ (by decide)⟩

/-- C6.  Classification is idempotent: re-running either classifier, or the
whole vanity-then-value pipeline, on already-classified records re-derives
(overwrites) the derived columns from the unchanged input columns, so a
second run changes nothing — scores and reasons never double-accumulate. -/
theorem claim_C6 (df : List MetricRecord) :
    identify_vanity_metrics (identify_vanity_metrics df) =
      identify_vanity_metrics df ∧
    identify_valuable_metrics (identify_valuable_metrics df) =
      identify_valuable_metrics df ∧
    identify_valuable_metrics (identify_vanity_metrics
        (identify_valuable_metrics (identify_vanity_metrics df))) =
      identify_valuable_metrics (identify_vanity_metrics df) := by
  refine ⟨?_, ?_, ?_⟩
  · simp only [identify_vanity_metrics, List.map_map]
    congr 1
  · simp only [identify_valuable_metrics, List.map_map]
    congr 1
  · simp only [identify_vanity_metrics, identify_valuable_metrics,
      List.map_map]
    congr 1

/-- C7.  Neither classifier changes any input attribute of any record: the
classified table projected to the input columns equals the input table so
projected (and the row count is unchanged); in the pure embedding the input
list itself is untouched by construction, the classifiers returning an
extended copy. -/
theorem claim_C7 (df : List MetricRecord) :
    (identify_vanity_metrics df).map inputColumns = df.map inputColumns ∧
    (identify_valuable_metrics df).map inputColumns = df.map inputColumns ∧
    (identify_vanity_metrics df).length = df.length ∧
    (identify_valuable_metrics df).length = df.length := by
  refine ⟨?_, ?_, by simp [identify_vanity_metrics],
    by simp [identify_valuable_metrics]⟩
  · rw [identify_vanity_metrics, List.map_map,
      show inputColumns ∘ identify_vanity_metrics_record = inputColumns from
        funext fun r => rfl]
  · rw [identify_valuable_metrics, List.map_map,
      show inputColumns ∘ identify_valuable_metrics_record = inputColumns from
        funext fun r => rfl]

/-- C10.  The impact scorer's recency match is case-sensitive: lowercase
"this week" matches no recency-table key (sub-score 0, impact 0 with all
other inputs "No") while "This week" scores 1.0 (impact 0.3); the value
classifier lowercases both sides first, so both spellings earn the same
rule-2 points (+2). -/
theorem claim_C10 :
    recency_score_of "this week" = 0 ∧
    recency_score_of "This week" = 1 ∧
    impact_score_of exLowerWeek = 0 ∧
    impact_score_of exUpperWeek = 0.3 ∧
    (identify_valuable_metrics_record exLowerWeek).value_score = 2 ∧
    (identify_valuable_metrics_record exUpperWeek).value_score = 2 := by
  refine ⟨?_, ?_, ?_, ?_, by decide, by decide⟩
  · rw [show recency_score_of "this week" = 0.0 from rfl]
    norm_num
  · rw [show recency_score_of "This week" = 1.0 from rfl]
    norm_num
  · rw [impact_score_of,
      show decision_score exLowerWeek = 0.0 from rfl,
      show recency_score_of exLowerWeek.Metric_Last_Used_For_Decision = 0.0 from
        rfl,
      show visibility_score exLowerWeek = 0.0 from rfl,
      show executive_score exLowerWeek = 0.0 from rfl]
    norm_num
  · rw [impact_score_of,
      show decision_score exUpperWeek = 0.0 from rfl,
      show recency_score_of exUpperWeek.Metric_Last_Used_For_Decision = 1.0 from
        rfl,
      show visibility_score exUpperWeek = 0.0 from rfl,
      show executive_score exUpperWeek = 0.0 from rfl]
    norm_num

theorem rowToRecord_isOk (row : RawRow) :
    (rowToRecord row).isOk =
      required_columns.all (fun c => (List.lookup c row).isSome) := by
  simp only [rowToRecord, colGet, bind, Except.bind, required_columns,
    List.all_cons, List.all_nil]
  cases List.lookup "Department" row <;>
    cases List.lookup "Metric_Name" row <;>
      cases List.lookup "Visible_in_Dashboard" row <;>
        cases List.lookup "Used_in_Decision_Making" row <;>
          cases List.lookup "Executive_Requested" row <;>
            cases List.lookup "Last_Reviewed" row <;>
              cases List.lookup "Metric_Last_Used_For_Decision" row <;>
                cases List.lookup "Interpretation_Notes" row <;>
                  rfl

/-- C9.  A table missing one of the eight required columns makes the whole
run fail with an error and no classified output; a table carrying all eight
always classifies (no per-record failure), and a record whose
`Last_Reviewed` label is unrecognized merely contributes zero from vanity
rule 3. -/
theorem claim_C9 :
    (∀ df : List RawRow, df ≠ [] → ∀ c ∈ required_columns,
      (∀ row ∈ df, List.lookup c row = none) →
      ∃ e, run_pipeline_checked df = Except.error e) ∧
    (∀ df : List RawRow,
      (∀ row ∈ df, ∀ c ∈ required_columns, (List.lookup c row).isSome) →
      ∃ out, run_pipeline_checked df = Except.ok out) ∧
    (∀ r : MetricRecord,
      ¬(r.Last_Reviewed = "Unknown" ∨ r.Last_Reviewed = "Last quarter" ∨
          r.Last_Reviewed = "Last year") →
      vanity_contrib_3 r = 0) := by
  refine ⟨?_, ?_, ?_⟩
  · intro df hne c hc hmiss
    obtain ⟨row, rest, rfl⟩ : ∃ row rest, df = row :: rest := by
      cases df with
      | nil => exact absurd rfl hne
      | cons row rest => exact ⟨row, rest, rfl⟩
    have hfalse : (rowToRecord row).isOk = false := by
      rw [rowToRecord_isOk, List.all_eq_false]
      exact ⟨c, hc, by simp [hmiss row (List.mem_cons_self _ _)]⟩
    obtain ⟨e, he⟩ : ∃ e, rowToRecord row = Except.error e := by
      cases hr : rowToRecord row with
      | ok r =>
        rw [hr] at hfalse
        simp [Except.isOk, Except.toBool] at hfalse
      | error e => exact ⟨e, rfl⟩
    refine ⟨e, ?_⟩
    rw [run_pipeline_checked]
    rw [List.mapM_cons, he]
    rfl
  · intro df hall
    suffices h : ∃ rs, df.mapM rowToRecord = Except.ok rs by
      obtain ⟨rs, hrs⟩ := h
      refine ⟨identify_valuable_metrics (identify_vanity_metrics rs), ?_⟩
      rw [run_pipeline_checked, hrs]
      rfl
    induction df with
    | nil => exact ⟨[], rfl⟩
    | cons row rest ih =>
      have htrue : (rowToRecord row).isOk = true := by
        rw [rowToRecord_isOk, List.all_eq_true]
        intro c hc
        exact hall row (List.mem_cons_self _ _) c hc
      obtain ⟨r, hr⟩ : ∃ r, rowToRecord row = Except.ok r := by
        cases hrr : rowToRecord row with
        | ok r => exact ⟨r, rfl⟩
        | error e =>
          rw [hrr] at htrue
          simp [Except.isOk, Except.toBool] at htrue
      obtain ⟨rs, hrs⟩ :=
        ih (fun row h c hc => hall row (List.mem_cons_of_mem _ h) c hc)
      refine ⟨r :: rs, ?_⟩
      rw [List.mapM_cons, hr, hrs]
      rfl
  · intro r hr
    rw [vanity_contrib_3, if_neg hr]

theorem claim_C9_witness :
    ("Metric_Name" ∈ required_columns ∧
      ∃ e, run_pipeline_checked [[("Department", "Ops")]] = Except.error e) ∧
    (∃ out, run_pipeline_checked [exRawRow] = Except.ok out) ∧
    vanity_contrib_3 exSales = 0 :=
  ⟨⟨by decide,
    claim_C9.1 [[("Department", "Ops")]] (by simp) "Metric_Name" (by decide)
      (fun row h => by rw [List.mem_singleton.mp h]; rfl)⟩,
    claim_C9.2.1 [exRawRow]
      (fun row h c hc => by
        rw [List.mem_singleton.mp h]
        fin_cases hc <;> decide),
    claim_C9.2.2 exSales (by decide)⟩
